import Mathlib

/-!
Verification of the resource-location and dictionary-storage layer of
sudachi.rs (config builder merge, path anchors and resolvers, symbolic
path expansion, and storage materialization), shallowly embedded in Lean.

Strings are modelled as lists of characters (`Str`), byte buffers as
lists of naturals (`Bytes`), and the filesystem as a partial map from
paths to file contents (`FS`).
-/

namespace Sudachi

/-- Character-list model of Rust `String` / UTF-8 `PathBuf` contents. -/
abbrev Str := List Char

/-- Shim turning a Lean string literal into the `Str` model. -/
def str (s : String) : Str := s.toList

/-- Byte buffers (`Vec<u8>` / `&[u8]`). -/
abbrev Bytes := List Nat

/-- The filesystem, as a partial map from a path to the contents of the
file existing at that path. -/
abbrev FS := Str → Option Bytes

/-- `serde_json::Value`: opaque structured plugin-configuration blocks. -/
inductive Value where
  | null : Value
  | bool (b : Bool) : Value
  | num (n : Int) : Value
  | strv (s : Str) : Value
  | arr (elems : List Value) : Value
  | obj (fields : List (Str × Value)) : Value
  deriving Repr

/-- `SurfaceProjection` from `config/projection.rs`. -/
inductive SurfaceProjection where
  | Surface
  | Normalized
  | Reading
  | Dictionary
  | DictionaryAndSurface
  | NormalizedAndSurface
  | NormalizedNouns
  deriving Repr, DecidableEq

/-- `DataSource` (declared in `config/source.rs`, not under `src/`; its shape
is used throughout `anchor.rs` and `storage.rs`): a filesystem path, a
compiled-in byte constant, or an owned buffer. -/
inductive DataSource where
  | File (p : Str) : DataSource
  | Borrowed (b : Bytes) : DataSource
  | Owned (b : Bytes) : DataSource
  deriving Repr, DecidableEq

/-- `PathBuf::join` on Unix, at the string level: an absolute second
component replaces the first; otherwise a separator is inserted unless the
root is empty or already ends with one. -/
def pathJoin (root : Str) (p : Str) : Str :=
  if p.head? = some '/' then p
  else if root = [] then p
  else if root.getLast? = some '/' then root ++ p
  else root ++ '/' :: p

/-- The four compiled-in byte constants (`include_bytes!` in `anchor.rs`);
their contents are irrelevant to every property proved here, so the
development is parametric in them. -/
structure EmbeddedData where
  charDef : Bytes
  rewriteDef : Bytes
  unkDef : Bytes
  settingBytes : Bytes

/-- Rust `&Path` argument of `PathResolver::candidate`: either valid UTF-8
(so `Path::to_str` succeeds) or not. -/
inductive RPath where
  | utf8 (s : Str) : RPath
  | nonUtf8 (bytes : List Nat) : RPath
  deriving Repr, DecidableEq

/-- `Path::to_str`. -/
def RPath.to_str : RPath → Option Str
  | .utf8 s => some s
  | .nonUtf8 _ => none

/-- `EmbeddedAnchor::candidate` (`anchor.rs` lines 199-209): UTF-8 decode,
then exact match against the four embedded resource names, in source
order. -/
def EmbeddedAnchor.candidate (e : EmbeddedData) (path : RPath) : Option DataSource :=
  path.to_str.bind fun pathstr =>
    if pathstr = str "char.def" then some (.Borrowed e.charDef)
    else if pathstr = str "rewrite.def" then some (.Borrowed e.rewriteDef)
    else if pathstr = str "unk.def" then some (.Borrowed e.unkDef)
    else if pathstr = str "sudachi.json" then some (.Borrowed e.settingBytes)
    else none

/-- One `PathResolver` in an anchor: `EmbeddedAnchor` or `FileSystemAnchor`
with its root directory (`PathBuf::new()`, i.e. the empty string, means the
current working directory). -/
inductive Resolver where
  | embedded : Resolver
  | filesystem (root : Str) : Resolver
  deriving Repr, DecidableEq

/-- `PathResolver::candidate` dispatch: `FileSystemAnchor::candidate` always
returns `File(root.join(path))`; the embedded resolver consults its fixed
table. Anchor-level queries are UTF-8 strings here. -/
def Resolver.candidate (e : EmbeddedData) : Resolver → Str → Option DataSource
  | .embedded, p => EmbeddedAnchor.candidate e (.utf8 p)
  | .filesystem root, p => some (.File (pathJoin root p))

/-- `PathResolver::filesystem_roots`: only filesystem resolvers have one. -/
def Resolver.fsRoot : Resolver → Option Str
  | .embedded => none
  | .filesystem root => some root

/-- `PathAnchor` (`anchor.rs`): an ordered sequence of resolvers. -/
structure PathAnchor where
  anchors : List Resolver
  deriving Repr, DecidableEq

def PathAnchor.empty : PathAnchor := ⟨[]⟩

def PathAnchor.new_default : PathAnchor := ⟨[.embedded, .filesystem []]⟩

def PathAnchor.new_embedded : PathAnchor := ⟨[.embedded]⟩

def PathAnchor.new_cwd : PathAnchor := ⟨[.filesystem []]⟩

def PathAnchor.new_filesystem (path : Str) : PathAnchor := ⟨[.filesystem path]⟩

/-- `PathAnchor::append` (`anchor.rs` lines 108-110): `Vec::append` moves the
elements of `other` to the end of `self`, leaving `other` empty. Modelled by
returning the post-states of both anchors, `(self, other)`. -/
def PathAnchor.append (a other : PathAnchor) : PathAnchor × PathAnchor :=
  (⟨a.anchors ++ other.anchors⟩, ⟨[]⟩)

/-- `PathAnchor::filesystem_roots`: the roots of filesystem resolvers, in
chain order. -/
def PathAnchor.filesystem_roots (a : PathAnchor) : List Str :=
  a.anchors.filterMap Resolver.fsRoot

/-- Modelled from the spec: `DataSource::exists` lives in `config/source.rs`,
which is not under `src/`. Per §3, a `File` candidate exists iff the file
exists on disk, while embedded/owned sources always exist. -/
def DataSource.src_exists (fs : FS) : DataSource → Bool
  | .File p => (fs p).isSome
  | .Borrowed _ => true
  | .Owned _ => true

/-- Decimal rendering of a byte list, as Rust `Debug` renders a slice. -/
def renderBytes (b : Bytes) : Str :=
  '[' :: (str ", ").intercalate (b.map fun x => (Nat.repr x).toList) ++ [']']

/-- Modelled from the spec: the `Debug` rendering of an
`Option<DataSource>` candidate, as produced in `resolution_failure` (the
`derive(Debug)` impl lives in the missing `config/source.rs`). `None`
renders as `None`; a present candidate renders its variant and payload. -/
def renderCandidate : Option DataSource → Str
  | none => str "None"
  | some (.File p) => str "Some(File(\"" ++ p ++ str "\"))"
  | some (.Borrowed b) => str "Some(Borrowed(" ++ renderBytes b ++ str "))"
  | some (.Owned b) => str "Some(Owned(" ++ renderBytes b ++ str "))"

/-- `ConfigError` (`config/error.rs`, not under `src/`): the
`PathResolution` variant carries the original query and the rendered
candidate list, exactly as constructed in `anchor.rs` lines 147-156. -/
inductive ConfigError where
  | PathResolution (target : Str) (candidates : List Str) : ConfigError
  | InvalidFormat (msg : Str) : ConfigError
  deriving Repr, DecidableEq

/-- `PathAnchor::all_candidates`: every resolver once, in order, skipping
those with no candidate. -/
def PathAnchor.all_candidates (e : EmbeddedData) (a : PathAnchor) (p : Str) : List DataSource :=
  a.anchors.filterMap fun r => r.candidate e p

/-- `PathAnchor::first_existing`: first candidate whose backing content
exists. -/
def PathAnchor.first_existing (e : EmbeddedData) (fs : FS) (a : PathAnchor) (p : Str) :
    Option DataSource :=
  (a.all_candidates e p).find? fun ds => ds.src_exists fs

/-- `PathAnchor::resolution_failure` (`anchor.rs` lines 147-156): the error
carries the query and the `Debug` rendering of every resolver's candidate
(including absent ones, rendered `None`), in chain order. -/
def PathAnchor.resolution_failure (e : EmbeddedData) (a : PathAnchor) (p : Str) : ConfigError :=
  .PathResolution p (a.anchors.map fun r => renderCandidate (r.candidate e p))

/-- `PathAnchor::resolve` (`anchor.rs` lines 112-116). -/
def PathAnchor.resolve (e : EmbeddedData) (fs : FS) (a : PathAnchor) (p : Str) :
    Except ConfigError DataSource :=
  match a.first_existing e fs p with
  | some ds => .ok ds
  | none => .error (a.resolution_failure e p)

/-- `ConfigBuilder` (`config/builder.rs` lines 64-84): a partially-populated
record of independently optional fields plus an owned anchor. -/
structure ConfigBuilder where
  anchor : PathAnchor
  path : Option Str
  systemDict : Option Str
  userDict : Option (List Str)
  characterDefinitionFile : Option Str
  connectionCostPlugin : Option (List Value)
  inputTextPlugin : Option (List Value)
  oovProviderPlugin : Option (List Value)
  pathRewritePlugin : Option (List Value)
  projection : Option SurfaceProjection

/-- `ConfigBuilder::empty`: parsing the empty JSON object yields every
field `None` and the default (empty) anchor. -/
def ConfigBuilder.empty : ConfigBuilder :=
  ⟨PathAnchor.empty, none, none, none, none, none, none, none, none, none⟩

/-- `ConfigBuilder::with_anchor`. -/
def ConfigBuilder.with_anchor (cb : ConfigBuilder) (anchor : PathAnchor) : ConfigBuilder :=
  { cb with anchor := anchor }

/-- `ConfigBuilder::append_anchor` (`builder.rs` lines 161-164): appends the
argument anchor onto the builder's own, draining the argument; modelled by
returning the post-states of the builder and of the argument anchor. -/
def ConfigBuilder.append_anchor (cb : ConfigBuilder) (anchor : PathAnchor) :
    ConfigBuilder × PathAnchor :=
  let ap := cb.anchor.append anchor
  ({ cb with anchor := ap.1 }, ap.2)

/-- `ConfigBuilder::system_dict`. -/
def ConfigBuilder.system_dict (cb : ConfigBuilder) (dict : Str) : ConfigBuilder :=
  { cb with systemDict := some dict }

/-- `ConfigBuilder::add_user_dict`. -/
def ConfigBuilder.add_user_dict (cb : ConfigBuilder) (dict : Str) : ConfigBuilder :=
  { cb with userDict := some (cb.userDict.getD [] ++ [dict]) }

/-- `ConfigBuilder::clear_user_dict`. -/
def ConfigBuilder.clear_user_dict (cb : ConfigBuilder) : ConfigBuilder :=
  { cb with userDict := none }

/-- `ConfigBuilder::fallback` (`builder.rs` lines 225-237): append the
other's (cloned) anchor, then for every optional field keep `self`'s value
when present, else take `other`'s (`merge_cfg_value!`, i.e. `Option::or`). -/
def ConfigBuilder.fallback (cb other : ConfigBuilder) : ConfigBuilder where
  anchor := (cb.anchor.append other.anchor).1
  path := cb.path.or other.path
  systemDict := cb.systemDict.or other.systemDict
  userDict := cb.userDict.or other.userDict
  characterDefinitionFile := cb.characterDefinitionFile.or other.characterDefinitionFile
  connectionCostPlugin := cb.connectionCostPlugin.or other.connectionCostPlugin
  inputTextPlugin := cb.inputTextPlugin.or other.inputTextPlugin
  oovProviderPlugin := cb.oovProviderPlugin.or other.oovProviderPlugin
  pathRewritePlugin := cb.pathRewritePlugin.or other.pathRewritePlugin
  projection := cb.projection.or other.projection

/-- `Config` (`config.rs` lines 50-65): the fully resolved configuration. -/
structure Config where
  anchor : PathAnchor
  system_dict : Str
  user_dicts : List Str
  character_definition_file : Str
  connection_cost_plugins : List Value
  input_text_plugins : List Value
  oov_provider_plugins : List Value
  path_rewrite_plugins : List Value
  projection : SurfaceProjection

/-- `DEFAULT_DICT_FILE` (`config.rs` line 43). -/
def DEFAULT_DICT_FILE : Str := str "system_core.dic"

/-- `DEFAULT_CHAR_DEF_FILE` (`config.rs` line 44). -/
def DEFAULT_CHAR_DEF_FILE : Str := str "char.def"

/-- `ConfigBuilder::build` (`builder.rs` lines 198-222): prepend the `path`
override (when set) to the anchor, then substitute defaults for every
absent field. Total: returns a `Config` for every builder. -/
def ConfigBuilder.build (cb : ConfigBuilder) : Config :=
  let anchor : PathAnchor :=
    match cb.path with
    | some p => ((PathAnchor.new_filesystem p).append cb.anchor).1
    | none => cb.anchor
  { anchor := anchor
    system_dict := cb.systemDict.getD DEFAULT_DICT_FILE
    user_dicts := cb.userDict.getD []
    character_definition_file := cb.characterDefinitionFile.getD DEFAULT_CHAR_DEF_FILE
    connection_cost_plugins := cb.connectionCostPlugin.getD []
    input_text_plugins := cb.inputTextPlugin.getD []
    oov_provider_plugins := cb.oovProviderPlugin.getD []
    path_rewrite_plugins := cb.pathRewritePlugin.getD []
    projection := cb.projection.getD .Surface }

/-- `Config::new` (`config.rs` lines 72-96), parametrised over the builder
obtained by parsing the config source (`ConfigBuilder::from_file` when
`config_file` is given, `ConfigBuilder::from_embedded` otherwise — JSON
parsing and file I/O are outside the embedding, so the parsed builder
`base` is the parameter): prepend the explicit resource directory to the
anchor when given, override the system dictionary when given, then build. -/
def Config.new_model (base : ConfigBuilder) (resource_dir : Option Str)
    (dictionary_path : Option Str) : Config :=
  let b1 : ConfigBuilder :=
    match resource_dir with
    | some p => base.with_anchor ((PathAnchor.new_filesystem p).append base.anchor).1
    | none => base
  let b2 : ConfigBuilder :=
    match dictionary_path with
    | some p => b1.system_dict p
    | none => b1
  b2.build

/-- `Config::resolve_paths` (`config.rs` lines 128-151), parametrised by the
process-wide `CURRENT_EXE_DIR` (`exeDir`): a `$exe` prefix is replaced by
the executable's parent directory, yielding the `/deps` variant first; a
`$cfg/` or `$cfg\` prefix is expanded per filesystem root of the anchor;
anything else passes through unchanged. -/
def Config.resolve_paths (exeDir : Str) (cfg : Config) (path : Str) : List Str :=
  if (str "$exe").isPrefixOf path then
    let p := exeDir ++ path.drop 4
    let p2 := exeDir ++ str "/deps" ++ path.drop 4
    [p2, p]
  else if (str "$cfg/").isPrefixOf path || (str "$cfg\\").isPrefixOf path then
    cfg.anchor.filesystem_roots.map fun root => pathJoin root (path.drop 5)
  else
    [path]

/-- `SudachiError` (`error.rs`, not under `src/`): only the shape needed by
`Storage::try_from` — an I/O failure annotated with the offending path
(spec §7), or a wrapped config error. -/
inductive SudachiError where
  | ioFailure (context : Str) : SudachiError
  | config (e : ConfigError) : SudachiError
  deriving Repr, DecidableEq

/-- `Storage` (`dic/storage.rs` lines 26-30): a memory-mapped file (held as
the mapped bytes), a compiled-in slice, or an owned buffer. -/
inductive Storage where
  | File (mapped : Bytes) : Storage
  | Borrowed (b : Bytes) : Storage
  | Owned (b : Bytes) : Storage
  deriving Repr, DecidableEq

/-- `TryFrom<DataSource> for Storage` (`storage.rs` lines 40-52):
`File(p)` opens and memory-maps the file (failing with the path attached
when it does not exist); `Borrowed` and `Owned` always succeed. -/
def Storage.tryFrom (fs : FS) : DataSource → Except SudachiError Storage
  | .File p =>
    match fs p with
    | some bytes => .ok (.File bytes)
    | none => .error (.ioFailure p)
  | .Borrowed b => .ok (.Borrowed b)
  | .Owned v => .ok (.Owned v)

/-- `AsRef<[u8]> for Storage` (`storage.rs` lines 54-62). -/
def Storage.as_ref : Storage → Bytes
  | .File m => m
  | .Borrowed b => b
  | .Owned v => v

lemma opt_or_some {α : Type} (v : α) (b : Option α) : (some v).or b = some v := rfl

lemma opt_or_none {α : Type} (b : Option α) : (Option.none).or b = b := rfl

lemma opt_or_assoc {α : Type} (a b c : Option α) : (a.or b).or c = a.or (b.or c) := by
  cases a <;> rfl

/-- C1: `ConfigBuilder::fallback` merges field-by-field, the leftmost set
value winning: each optional field of `A.fallback(B)` is `A`'s value when
set, else `B`'s; and chaining shape is irrelevant —
`(a.fallback b).fallback c = a.fallback (b.fallback c)` holds field by
field (indeed as whole builders, anchors included). -/
theorem fallback_leftmost_wins_and_chain_shape_irrelevant
    (A B a b c : ConfigBuilder) :
    (∀ v, A.path = some v → (A.fallback B).path = some v) ∧
    (A.path = none → (A.fallback B).path = B.path) ∧
    (∀ v, A.systemDict = some v → (A.fallback B).systemDict = some v) ∧
    (A.systemDict = none → (A.fallback B).systemDict = B.systemDict) ∧
    (∀ v, A.userDict = some v → (A.fallback B).userDict = some v) ∧
    (A.userDict = none → (A.fallback B).userDict = B.userDict) ∧
    (∀ v, A.characterDefinitionFile = some v →
      (A.fallback B).characterDefinitionFile = some v) ∧
    (A.characterDefinitionFile = none →
      (A.fallback B).characterDefinitionFile = B.characterDefinitionFile) ∧
    (∀ v, A.connectionCostPlugin = some v → (A.fallback B).connectionCostPlugin = some v) ∧
    (A.connectionCostPlugin = none →
      (A.fallback B).connectionCostPlugin = B.connectionCostPlugin) ∧
    (∀ v, A.inputTextPlugin = some v → (A.fallback B).inputTextPlugin = some v) ∧
    (A.inputTextPlugin = none → (A.fallback B).inputTextPlugin = B.inputTextPlugin) ∧
    (∀ v, A.oovProviderPlugin = some v → (A.fallback B).oovProviderPlugin = some v) ∧
    (A.oovProviderPlugin = none → (A.fallback B).oovProviderPlugin = B.oovProviderPlugin) ∧
    (∀ v, A.pathRewritePlugin = some v → (A.fallback B).pathRewritePlugin = some v) ∧
    (A.pathRewritePlugin = none → (A.fallback B).pathRewritePlugin = B.pathRewritePlugin) ∧
    (∀ v, A.projection = some v → (A.fallback B).projection = some v) ∧
    (A.projection = none → (A.fallback B).projection = B.projection) ∧
    (a.fallback b).fallback c = a.fallback (b.fallback c) := by
  refine ⟨?_, ?_, ?_, ?_, ?_, ?_, ?_, ?_, ?_, ?_, ?_, ?_, ?_, ?_, ?_, ?_, ?_, ?_, ?_⟩
  all_goals try
    first
      | (intro v h; simp [ConfigBuilder.fallback, h])
      | (intro h; simp [ConfigBuilder.fallback, h])
  simp only [ConfigBuilder.fallback, PathAnchor.append, opt_or_assoc]
  simp [List.append_assoc]

/-- Witness for C1 at concrete builders. -/
theorem fallback_leftmost_wins_witness :
    let A := { ConfigBuilder.empty with path := some (str "a") }
    let B := { ConfigBuilder.empty with path := some (str "b"), systemDict := some (str "s") }
    (A.fallback B).path = some (str "a") ∧ (A.fallback B).systemDict = some (str "s") := by
  refine ⟨?_, ?_⟩
  · exact (fallback_leftmost_wins_and_chain_shape_irrelevant
      { ConfigBuilder.empty with path := some (str "a") }
      { ConfigBuilder.empty with path := some (str "b"), systemDict := some (str "s") }
      ConfigBuilder.empty ConfigBuilder.empty ConfigBuilder.empty).1 (str "a") rfl
  · exact ((fallback_leftmost_wins_and_chain_shape_irrelevant
      { ConfigBuilder.empty with path := some (str "a") }
      { ConfigBuilder.empty with path := some (str "b"), systemDict := some (str "s") }
      ConfigBuilder.empty ConfigBuilder.empty ConfigBuilder.empty).2.2.2.1) rfl

/-- C2: `ConfigBuilder::build` is total (it is a Lean function
`ConfigBuilder → Config`, so every builder yields a `Config`), absent
optional fields get their defaults (`system_core.dic`, `char.def`,
projection `Surface`, empty plugin and user-dictionary lists), and set
fields are carried over unchanged. -/
theorem build_total_and_defaults (b : ConfigBuilder) :
    (b.systemDict = none → b.build.system_dict = str "system_core.dic") ∧
    (∀ v, b.systemDict = some v → b.build.system_dict = v) ∧
    (b.characterDefinitionFile = none → b.build.character_definition_file = str "char.def") ∧
    (∀ v, b.characterDefinitionFile = some v → b.build.character_definition_file = v) ∧
    (b.projection = none → b.build.projection = .Surface) ∧
    (∀ v, b.projection = some v → b.build.projection = v) ∧
    (b.userDict = none → b.build.user_dicts = []) ∧
    (∀ v, b.userDict = some v → b.build.user_dicts = v) ∧
    (b.connectionCostPlugin = none → b.build.connection_cost_plugins = []) ∧
    (∀ v, b.connectionCostPlugin = some v → b.build.connection_cost_plugins = v) ∧
    (b.inputTextPlugin = none → b.build.input_text_plugins = []) ∧
    (∀ v, b.inputTextPlugin = some v → b.build.input_text_plugins = v) ∧
    (b.oovProviderPlugin = none → b.build.oov_provider_plugins = []) ∧
    (∀ v, b.oovProviderPlugin = some v → b.build.oov_provider_plugins = v) ∧
    (b.pathRewritePlugin = none → b.build.path_rewrite_plugins = []) ∧
    (∀ v, b.pathRewritePlugin = some v → b.build.path_rewrite_plugins = v) := by
  refine ⟨?_, ?_, ?_, ?_, ?_, ?_, ?_, ?_, ?_, ?_, ?_, ?_, ?_, ?_, ?_, ?_⟩
  all_goals
    first
      | (intro v h
         simp [ConfigBuilder.build, h, DEFAULT_DICT_FILE, DEFAULT_CHAR_DEF_FILE])
      | (intro h
         simp [ConfigBuilder.build, h, DEFAULT_DICT_FILE, DEFAULT_CHAR_DEF_FILE])

/-- Witness for C2: the empty builder builds to all defaults, and a builder
with a set system dictionary carries it over. -/
theorem build_total_and_defaults_witness :
    ConfigBuilder.empty.build.system_dict = str "system_core.dic" ∧
    (ConfigBuilder.empty.system_dict (str "my.dic")).build.system_dict = str "my.dic" := by
  refine ⟨?_, ?_⟩
  · exact (build_total_and_defaults ConfigBuilder.empty).1 rfl
  · exact (build_total_and_defaults (ConfigBuilder.empty.system_dict (str "my.dic"))).2.1
      (str "my.dic") rfl

/-- C3: `Config::new` applies explicit-argument > config-file value >
compiled-in default independently per field: when `dictionary_path` is
given, the resulting system dictionary equals it regardless of what the
config file set; when absent, the config file's `systemDict` is used; when
that too is absent, the default applies; and fields with no corresponding
explicit argument (here `characterDefinitionFile`) keep their config-file
values whatever arguments are supplied. -/
theorem config_new_field_precedence (base : ConfigBuilder) (rd dp : Option Str) :
    (∀ d, dp = some d → (Config.new_model base rd dp).system_dict = d) ∧
    (dp = none → ∀ v, base.systemDict = some v →
      (Config.new_model base rd dp).system_dict = v) ∧
    (dp = none → base.systemDict = none →
      (Config.new_model base rd dp).system_dict = str "system_core.dic") ∧
    (∀ v, base.characterDefinitionFile = some v →
      (Config.new_model base rd dp).character_definition_file = v) ∧
    (base.characterDefinitionFile = none →
      (Config.new_model base rd dp).character_definition_file = str "char.def") := by
  refine ⟨?_, ?_, ?_, ?_, ?_⟩ <;>
    cases rd <;> cases dp <;>
      simp only [Config.new_model, ConfigBuilder.with_anchor, ConfigBuilder.system_dict,
        ConfigBuilder.build, DEFAULT_DICT_FILE, DEFAULT_CHAR_DEF_FILE] <;>
      intros <;> simp_all

/-- Witness for C3: a config-file builder setting both `systemDict` and
`characterDefinitionFile`, with an explicit dictionary path: the explicit
path wins for the system dictionary while the file's character-definition
value is kept. -/
theorem config_new_field_precedence_witness :
    let base := { ConfigBuilder.empty with
      systemDict := some (str "file.dic"),
      characterDefinitionFile := some (str "file_char.def") }
    (Config.new_model base (some (str "/res")) (some (str "cli.dic"))).system_dict
        = str "cli.dic" ∧
    (Config.new_model base (some (str "/res"))
        (some (str "cli.dic"))).character_definition_file = str "file_char.def" := by
  refine ⟨?_, ?_⟩
  · exact (config_new_field_precedence
      { ConfigBuilder.empty with
        systemDict := some (str "file.dic"),
        characterDefinitionFile := some (str "file_char.def") }
      (some (str "/res")) (some (str "cli.dic"))).1 (str "cli.dic") rfl
  · exact (config_new_field_precedence
      { ConfigBuilder.empty with
        systemDict := some (str "file.dic"),
        characterDefinitionFile := some (str "file_char.def") }
      (some (str "/res")) (some (str "cli.dic"))).2.2.2.1 (str "file_char.def") rfl

lemma str_exe : str "$exe" = ['$', 'e', 'x', 'e'] := rfl

lemma str_exe_slash : str "$exe/" = ['$', 'e', 'x', 'e', '/'] := rfl

lemma str_deps : str "/deps" = ['/', 'd', 'e', 'p', 's'] := rfl

lemma str_deps_slash : str "/deps/" = ['/', 'd', 'e', 'p', 's', '/'] := rfl

lemma str_slash : str "/" = ['/'] := rfl

lemma str_cfg_slash : str "$cfg/" = ['$', 'c', 'f', 'g', '/'] := rfl

lemma str_cfg_bslash : str "$cfg\\" = ['$', 'c', 'f', 'g', '\\'] := rfl

/-- C4: `resolve_paths("$exe/" ++ rest)` returns exactly two strings, the
executable-parent directory joined with `/deps/rest` first, then with
`/rest`. -/
theorem resolve_paths_exe (exeDir : Str) (cfg : Config) (rest : Str) :
    Config.resolve_paths exeDir cfg (str "$exe/" ++ rest) =
      [exeDir ++ str "/deps/" ++ rest, exeDir ++ str "/" ++ rest] := by
  simp [Config.resolve_paths, str_exe, str_exe_slash, str_deps, str_slash, str_deps_slash,
    List.isPrefixOf]

/-- Witness-style concrete check for C4 (the theorem has no `Prop`
hypotheses; this closed corollary applies it at `"$exe/data"`). -/
theorem resolve_paths_exe_witness :
    Config.resolve_paths (str "/opt/bin")
      ⟨PathAnchor.new_default, DEFAULT_DICT_FILE, [], DEFAULT_CHAR_DEF_FILE, [], [], [], [],
        .Surface⟩ (str "$exe/data") =
      [str "/opt/bin/deps/data", str "/opt/bin/data"] := by
  have h := resolve_paths_exe (str "/opt/bin")
    ⟨PathAnchor.new_default, DEFAULT_DICT_FILE, [], DEFAULT_CHAR_DEF_FILE, [], [], [], [],
      .Surface⟩ (str "data")
  simpa using h

/-- C5: `resolve_paths("$cfg/" ++ rest)` (either slash style) returns one
entry per filesystem-backed resolver root of the anchor, each root joined
with `rest`, in anchor order; with zero filesystem roots the result is
empty. -/
theorem resolve_paths_cfg (exeDir : Str) (cfg : Config) (rest : Str) :
    Config.resolve_paths exeDir cfg (str "$cfg/" ++ rest) =
      cfg.anchor.filesystem_roots.map (fun root => pathJoin root rest) ∧
    Config.resolve_paths exeDir cfg (str "$cfg\\" ++ rest) =
      cfg.anchor.filesystem_roots.map (fun root => pathJoin root rest) ∧
    (cfg.anchor.filesystem_roots = [] →
      Config.resolve_paths exeDir cfg (str "$cfg/" ++ rest) = []) := by
  refine ⟨?_, ?_, ?_⟩ <;>
    simp [Config.resolve_paths, str_exe, str_cfg_slash, str_cfg_bslash, List.isPrefixOf]

/-- Witness for C5: two filesystem roots give the two joined paths in
anchor order; the embedded-only anchor gives the empty sequence. -/
theorem resolve_paths_cfg_witness :
    Config.resolve_paths (str "/opt/bin")
      ⟨⟨[.filesystem (str "/r1"), .embedded, .filesystem (str "/r2")]⟩, DEFAULT_DICT_FILE, [],
        DEFAULT_CHAR_DEF_FILE, [], [], [], [], .Surface⟩ (str "$cfg/data") =
      [str "/r1/data", str "/r2/data"] ∧
    Config.resolve_paths (str "/opt/bin")
      ⟨PathAnchor.new_embedded, DEFAULT_DICT_FILE, [], DEFAULT_CHAR_DEF_FILE, [], [], [], [],
        .Surface⟩ (str "$cfg/data") = [] := by
  constructor
  · have h := (resolve_paths_cfg (str "/opt/bin")
      ⟨⟨[.filesystem (str "/r1"), .embedded, .filesystem (str "/r2")]⟩, DEFAULT_DICT_FILE, [],
        DEFAULT_CHAR_DEF_FILE, [], [], [], [], .Surface⟩ (str "data")).1
    rw [show str "$cfg/" ++ str "data" = str "$cfg/data" from rfl] at h
    rw [h]
    rfl
  · have h := (resolve_paths_cfg (str "/opt/bin")
      ⟨PathAnchor.new_embedded, DEFAULT_DICT_FILE, [], DEFAULT_CHAR_DEF_FILE, [], [], [], [],
        .Surface⟩ (str "data")).2.2 rfl
    rw [show str "$cfg/" ++ str "data" = str "$cfg/data" from rfl] at h
    exact h

/-- A concrete config value used only for closed evaluations. -/
def sampleConfig : Config :=
  ⟨PathAnchor.new_default, DEFAULT_DICT_FILE, [], DEFAULT_CHAR_DEF_FILE, [], [], [], [],
    .Surface⟩

/-- C6 counterexample: `"$exeX"` is neither of the form `"$exe/<rest>"` nor
of the form `"$cfg/<rest>"`/`"$cfg\<rest>"`, yet `resolve_paths` does not
return it unchanged — the `$exe` branch fires on the bare prefix `"$exe"`
even without a following slash, producing the two expanded candidates. -/
theorem resolve_paths_other_counterexample :
    (str "$exe/").isPrefixOf (str "$exeX") = false ∧
    (str "$cfg/").isPrefixOf (str "$exeX") = false ∧
    (str "$cfg\\").isPrefixOf (str "$exeX") = false ∧
    Config.resolve_paths (str "/opt/bin") sampleConfig (str "$exeX") =
      [str "/opt/bin/depsX", str "/opt/binX"] ∧
    Config.resolve_paths (str "/opt/bin") sampleConfig (str "$exeX") ≠ [str "$exeX"] := by
  refine ⟨rfl, rfl, rfl, rfl, ?_⟩
  decide

/-- C6 amended: every string that does not start with `"$exe"` (slash or
not) and does not start with `"$cfg/"` or `"$cfg\"` is returned unchanged
as a single-element sequence. -/
theorem resolve_paths_other_amended (exeDir : Str) (cfg : Config) (s : Str)
    (h1 : (str "$exe").isPrefixOf s = false)
    (h2 : (str "$cfg/").isPrefixOf s = false)
    (h3 : (str "$cfg\\").isPrefixOf s = false) :
    Config.resolve_paths exeDir cfg s = [s] := by
  simp [Config.resolve_paths, h1, h2, h3]

/-- Witness for the amended C6 at the plain string `"data"`. -/
theorem resolve_paths_other_amended_witness :
    Config.resolve_paths (str "/opt/bin") sampleConfig (str "data") = [str "data"] :=
  resolve_paths_other_amended (str "/opt/bin") sampleConfig (str "data") rfl rfl rfl

/-- C7: resolving a name absent from the embedded table over the anchor
`[EmbeddedResolver, FileSystemResolver(R)]` with the file `R/name` not on
disk fails with a `PathResolution` error carrying the original query and
exactly two rendered candidates in chain order: the embedded resolver's
no-match entry (`None`) and the non-existent filesystem path `R` joined
with the name. -/
theorem resolve_failure_two_candidates (e : EmbeddedData) (fs : FS) (R name : Str)
    (h1 : name ≠ str "char.def") (h2 : name ≠ str "rewrite.def")
    (h3 : name ≠ str "unk.def") (h4 : name ≠ str "sudachi.json")
    (h5 : fs (pathJoin R name) = none) :
    PathAnchor.resolve e fs ⟨[.embedded, .filesystem R]⟩ name =
      .error (.PathResolution name
        [str "None", str "Some(File(\"" ++ pathJoin R name ++ str "\"))"]) ∧
    (PathAnchor.resolution_failure e ⟨[.embedded, .filesystem R]⟩ name =
      .PathResolution name
        [str "None", str "Some(File(\"" ++ pathJoin R name ++ str "\"))"]) := by
  constructor <;>
    simp [PathAnchor.resolve, PathAnchor.first_existing, PathAnchor.all_candidates,
      PathAnchor.resolution_failure, Resolver.candidate, EmbeddedAnchor.candidate,
      RPath.to_str, renderCandidate, DataSource.src_exists, h1, h2, h3, h4, h5]

/-- Witness for C7: an empty filesystem, root `/res`, name `missing`. -/
theorem resolve_failure_two_candidates_witness :
    PathAnchor.resolve ⟨[], [], [], []⟩ (fun _ => none)
        ⟨[.embedded, .filesystem (str "/res")]⟩ (str "missing") =
      .error (.PathResolution (str "missing")
        [str "None", str "Some(File(\"/res/missing\"))"]) := by
  have h := (resolve_failure_two_candidates ⟨[], [], [], []⟩ (fun _ => none)
    (str "/res") (str "missing") (by decide) (by decide) (by decide) (by decide) rfl).1
  exact h.trans (by rfl)

/-- C8: Storage byte-equivalence — for any content `C`, materializing a
`Storage` from `DataSource::File(p)` where the file at `p` contains exactly
`C`, from `DataSource::Borrowed(C)`, and from `DataSource::Owned(C)` all
succeed, and `as_ref` on each yields exactly `C`. -/
theorem storage_byte_equivalence (fs : FS) (p : Str) (C : Bytes)
    (h : fs p = some C) :
    (∃ s, Storage.tryFrom fs (.File p) = .ok s ∧ s.as_ref = C) ∧
    (∃ s, Storage.tryFrom fs (.Borrowed C) = .ok s ∧ s.as_ref = C) ∧
    (∃ s, Storage.tryFrom fs (.Owned C) = .ok s ∧ s.as_ref = C) := by
  refine ⟨⟨.File C, ?_, rfl⟩, ⟨.Borrowed C, rfl, rfl⟩, ⟨.Owned C, rfl, rfl⟩⟩
  simp [Storage.tryFrom, h]

/-- Witness for C8 with content `[1, 2, 3]` at path `/d.dic`. -/
theorem storage_byte_equivalence_witness :
    (∃ s, Storage.tryFrom (fun q => if q = str "/d.dic" then some [1, 2, 3] else none)
        (.File (str "/d.dic")) = .ok s ∧ s.as_ref = [1, 2, 3]) ∧
    (∃ s, Storage.tryFrom (fun q => if q = str "/d.dic" then some [1, 2, 3] else none)
        (.Borrowed [1, 2, 3]) = .ok s ∧ s.as_ref = [1, 2, 3]) ∧
    (∃ s, Storage.tryFrom (fun q => if q = str "/d.dic" then some [1, 2, 3] else none)
        (.Owned [1, 2, 3]) = .ok s ∧ s.as_ref = [1, 2, 3]) :=
  storage_byte_equivalence (fun q => if q = str "/d.dic" then some [1, 2, 3] else none)
    (str "/d.dic") [1, 2, 3] (by simp)

/-- C9: the embedded resolver's table is fixed, closed, and matched
exactly and case-sensitively — `EmbeddedAnchor::candidate(name)` returns a
candidate iff `name` is one of `sudachi.json`, `char.def`, `rewrite.def`,
`unk.def`; any candidate returned is a `Borrowed` data source; and every
non-UTF-8 path returns no candidate. -/
theorem embedded_candidate_closed_table (e : EmbeddedData) (p : RPath) :
    ((EmbeddedAnchor.candidate e p).isSome ↔
      p = .utf8 (str "sudachi.json") ∨ p = .utf8 (str "char.def") ∨
      p = .utf8 (str "rewrite.def") ∨ p = .utf8 (str "unk.def")) ∧
    (∀ b, EmbeddedAnchor.candidate e (.nonUtf8 b) = none) ∧
    (∀ ds, EmbeddedAnchor.candidate e p = some ds → ∃ bytes, ds = .Borrowed bytes) := by
  refine ⟨?_, ?_, ?_⟩
  · cases p with
    | nonUtf8 b => simp [EmbeddedAnchor.candidate, RPath.to_str]
    | utf8 s =>
      simp only [EmbeddedAnchor.candidate, RPath.to_str, Option.some_bind, RPath.utf8.injEq]
      split_ifs with hc hr hu hs <;> simp_all
  · intro b
    simp [EmbeddedAnchor.candidate, RPath.to_str]
  · intro ds h
    cases p with
    | nonUtf8 b => simp [EmbeddedAnchor.candidate, RPath.to_str] at h
    | utf8 s =>
      simp only [EmbeddedAnchor.candidate, RPath.to_str, Option.some_bind] at h
      split_ifs at h <;>
        simp only [Option.some.injEq, reduceCtorEq] at h <;>
        exact ⟨_, h.symm⟩

/-- Witness for C9: `char.def` is served (as `Borrowed`), `bogus.def` and a
non-UTF-8 path are not. -/
theorem embedded_candidate_closed_table_witness :
    (EmbeddedAnchor.candidate ⟨[9], [8], [7], [6]⟩ (.utf8 (str "char.def"))).isSome = true ∧
    EmbeddedAnchor.candidate ⟨[9], [8], [7], [6]⟩ (.utf8 (str "bogus.def")) = none ∧
    EmbeddedAnchor.candidate ⟨[9], [8], [7], [6]⟩ (.nonUtf8 [255]) = none := by
  refine ⟨?_, by decide, ?_⟩
  · exact (embedded_candidate_closed_table ⟨[9], [8], [7], [6]⟩
      (.utf8 (str "char.def"))).1.mpr (Or.inr (Or.inl rfl))
  · exact (embedded_candidate_closed_table ⟨[9], [8], [7], [6]⟩ (.nonUtf8 [255])).2.1 [255]

/-- C10: `PathAnchor::append` moves the argument's resolvers out rather
than copying them — afterwards the receiver's sequence is its previous one
followed by the argument's previous one (the receiver's candidates keep
priority), and the argument is left empty; `ConfigBuilder::append_anchor`
drains its argument the same way, leaving every other builder field
untouched. -/
theorem append_moves_resolvers (a b : PathAnchor) (cb : ConfigBuilder) (c : PathAnchor) :
    (a.append b).1.anchors = a.anchors ++ b.anchors ∧
    (a.append b).2.anchors = [] ∧
    (cb.append_anchor c).1.anchor.anchors = cb.anchor.anchors ++ c.anchors ∧
    (cb.append_anchor c).2.anchors = [] ∧
    (cb.append_anchor c).1 = { cb with anchor := ⟨cb.anchor.anchors ++ c.anchors⟩ } := by
  exact ⟨rfl, rfl, rfl, rfl, rfl⟩

end Sudachi
